import Mathlib

/-!
Verification of the daily-scraper pipeline against its specification.

Shallow embedding of the pipeline's components:
  * `src/src/normalization.py`   — the low-value message filter (`is_low_value_message`);
    the text normalizer `filter_text` delegates to the external `cleantext` library and is
    therefore modelled as an explicit `normalize : String → String` parameter.
  * `src/src/classification.py`  — `LLMClassifier._classify_batch` (retry loop, response
    validation, per-batch fallback verdicts).
  * `src/src/utils.py`           — the merge/deduplication stage of `scrape_all_sources`
    (timestamp coercion, global text dedup, descending sort) and the orchestrator's
    per-task exception handlers.
  * `src/main.py`                — the result merger (left join on (id, platform),
    `keep != False` filter, dropping the `keep` column).
  * `src/src/scraper/discord_scrap.py` and `src/src/scraper/telegram_scrap.py` — the two
    connectors present in the repository, driven by scripted transport responses.

Machine-level details that the claims do not touch (event-loop scheduling, real sleeping
during backoff, the HTTP wire format) are represented by explicit response scripts;
external-library text cleaning is a parameter.  String processing is modelled over ASCII.
-/

/- ================================================================
   src/src/normalization.py
   ================================================================ -/

/-- Python whitespace characters recognised by str.strip/str.split (ASCII subset). -/
def pySpace (c : Char) : Bool :=
  c = ' ' || c = '\t' || c = '\n' || c = '\r' || c = '\x0b' || c = '\x0c'

/-- Python str.strip(): remove leading and trailing whitespace. -/
def pyStrip (cs : List Char) : List Char :=
  ((cs.dropWhile pySpace).reverse.dropWhile pySpace).reverse

/-- Python str.lower() on an ASCII character. -/
def lowerChar (c : Char) : Char :=
  if 'A' ≤ c ∧ c ≤ 'Z' then Char.ofNat (c.toNat + 32) else c

/-- A regex word character (the `\w` class of `re.sub(r"[^\w\s]", "", ...)`, ASCII). -/
def isWordChar (c : Char) : Bool :=
  ('a' ≤ c && c ≤ 'z') || ('A' ≤ c && c ≤ 'Z') || ('0' ≤ c && c ≤ '9') || c = '_'

/-- Split a character list at every whitespace character (producing empty pieces,
which Python's argument-free str.split then discards). -/
def splitAtSpaces (cs : List Char) : List (List Char) :=
  cs.foldr (fun c acc =>
    match acc with
    | [] => if pySpace c then [[], []] else [[c]]
    | w :: ws => if pySpace c then [] :: w :: ws else (c :: w) :: ws) [[]]

/-- The `_LOW_VALUE_PHRASES` set of `src/src/normalization.py`. -/
def lowValuePhrases : List String :=
  ["selamat pagi", "selamat siang", "selamat sore", "selamat malam",
   "gm", "gn", "gmn", "hai", "halo", "hello", "hi", "ok", "oke", "yes", "no",
   "good morning", "good night", "good evening", "pagi", "siang", "sore", "malam",
   "hehe", "haha", "wkwk", "hmm", "hm", "ya", "iya", "enggak", "nggak",
   "mantap", "sip"]

/-- `is_low_value_message` of `src/src/normalization.py`: empty/blank text is low value;
otherwise the text is stripped, lowercased, punctuation removed, split into words, and
single words or 2-3 word phrases from `_LOW_VALUE_PHRASES` are low value. -/
def is_low_value_message (text : String) : Bool :=
  if (pyStrip text.data).isEmpty then true
  else
    let cleaned := ((pyStrip text.data).map lowerChar).filter
      (fun c => isWordChar c || pySpace c)
    let words := (splitAtSpaces cleaned).filter (fun w => !w.isEmpty)
    if words.isEmpty then true
    else
      let fullPhrase := List.intercalate [' '] words
      let phrases := lowValuePhrases.map String.data
      if words.length == 1 && phrases.contains (words.headD []) then true
      else if 2 ≤ words.length && words.length ≤ 3 && phrases.contains fullPhrase then true
      else false

example : is_low_value_message "gm" = true := by decide
example : is_low_value_message "  Hello!! " = true := by decide
example : is_low_value_message "good morning" = true := by decide
example : is_low_value_message "major protocol exploit disclosed" = false := by decide
example : is_low_value_message "" = true := by decide

/- ================================================================
   src/src/classification.py — LLMClassifier._classify_batch
   ================================================================ -/

/-- A scalar cell value occurring in the classifier's verdict columns: the system prompt
asks the scoring service for JSON strings ("true"/"0.92") and JSON may also carry
booleans, so both shapes are represented. -/
inductive PdVal where
  | str (s : String)
  | bool (b : Bool)
deriving DecidableEq, Repr

/-- One element of the `input_data` list sent to the scoring service:
the `{"id", "text", "platform", "links"}` dict built in `LLMClassifier.classify`. -/
structure InItem where
  id : Nat
  platform : String
  text : String
  links : List String
deriving DecidableEq, Repr

/-- One element of the JSON array returned by the scoring service
(`{"id", "platform", "keep", "score", "tags"}`). -/
structure VerdictRow where
  id : Nat
  platform : String
  keep : PdVal
  score : PdVal
  tags : List String
deriving DecidableEq, Repr

/-- What one attempt of `_classify_batch` observes from the scoring call:
`exc` is a raised exception (timeout, transport error, or a `json.loads` failure);
`resp (some vs)` is a response parsing to a JSON list `vs`; `resp none` is a
response parsing to a non-list JSON value. -/
inductive LLMOutcome where
  | exc
  | resp (parsed : Option (List VerdictRow))
deriving DecidableEq, Repr

/-- The fallback verdict built per item in `_classify_batch` (lines 105-111):
string "false", string "0.0", empty tags. -/
def fallbackVerdict (item : InItem) : VerdictRow :=
  { id := item.id, platform := item.platform,
    keep := PdVal.str "false", score := PdVal.str "0.0", tags := [] }

/-- The whole-batch fallback: the list comprehension over `batch`. -/
def fallbackBatch (batch : List InItem) : List VerdictRow :=
  batch.map fallbackVerdict

/-- One iteration of the retry for-loop body of `_classify_batch`.  Every control path
of the body ends in a `return`: an accepted response returns it; an exception is caught,
logged and slept on (2 ^ attempt), after which control falls to the trailing fallback
`return`, which is indented inside the loop body; a non-list or wrong-length response
skips the `return result` and also falls to the trailing fallback `return`. -/
def attemptResult (batch : List InItem) (o : LLMOutcome) : List VerdictRow :=
  match o with
  | LLMOutcome.resp (some result) =>
      if result.length = batch.length then result else fallbackBatch batch
  | LLMOutcome.resp none => fallbackBatch batch
  | LLMOutcome.exc => fallbackBatch batch

/-- `_classify_batch`: `for attempt in range(3)` over scripted attempt outcomes
(`outcomes k` is what attempt `k` would observe).  Because every path of the loop body
returns, iteration 0 always returns and attempts 1 and 2 are unreachable. -/
def classifyBatch (batch : List InItem) (outcomes : Nat → LLMOutcome) : List VerdictRow :=
  attemptResult batch (outcomes 0)

/-- The acceptance test of line 99: the parsed response is a list whose length equals
the batch length. -/
def accepts (batch : List InItem) (o : LLMOutcome) : Bool :=
  match o with
  | LLMOutcome.resp (some vs) => vs.length == batch.length
  | _ => false

example :
    classifyBatch [⟨1, "discord", "t", []⟩] (fun _ => LLMOutcome.exc)
      = [fallbackVerdict ⟨1, "discord", "t", []⟩] := by decide

/- ================================================================
   src/src/utils.py lines 135-144 — merge & deduplication stage
   ================================================================ -/

/-- A row of one per-source DataFrame as it enters `pd.concat` in `scrape_all_sources`:
`timestamp` is still the raw per-source value (a string for the REST connector). -/
structure MsgRec where
  id : Nat
  platform : String
  text : String
  ts : String
deriving DecidableEq, Repr

/-- A combined row after `pd.to_datetime(combined['timestamp'], errors='coerce', utc=True)`:
`ts = none` is NaT (an unparsable timestamp), `ts = some t` a UTC instant. -/
structure CRec where
  id : Nat
  platform : String
  text : String
  ts : Option Nat
deriving DecidableEq, Repr

/-- The timestamp coercion applied to one row; `parse` stands for the `pd.to_datetime`
string parser, returning `none` exactly when parsing fails (NaT). -/
def coerceRec (parse : String → Option Nat) (r : MsgRec) : CRec :=
  { id := r.id, platform := r.platform, text := r.text, ts := parse r.ts }

/-- Ascending timestamp comparison used by `sort_values("timestamp")`:
NaT sorts last (pandas `na_position='last'`), so `none` is greatest. -/
def tsAscLEb : Option Nat → Option Nat → Bool
  | _, none => true
  | none, some _ => false
  | some a, some b => a ≤ b

/-- Descending timestamp comparison used by `sort_values("timestamp", ascending=False)`:
NaT again sorts last, so `none` is below every instant. -/
def tsDescLEb : Option Nat → Option Nat → Bool
  | some _, none => true
  | none, none => true
  | none, some _ => false
  | some a, some b => b ≤ a

def ascRel (x y : CRec) : Prop := tsAscLEb x.ts y.ts = true

def descRel (x y : CRec) : Prop := tsDescLEb x.ts y.ts = true

instance : DecidableRel ascRel :=
  fun x y => inferInstanceAs (Decidable (tsAscLEb x.ts y.ts = true))

instance : DecidableRel descRel :=
  fun x y => inferInstanceAs (Decidable (tsDescLEb x.ts y.ts = true))

instance : IsTotal CRec ascRel where
  total x y := by
    unfold ascRel tsAscLEb
    rcases x.ts with _ | a <;> rcases y.ts with _ | b <;> simp
    exact Nat.le_total a b

instance : IsTrans CRec ascRel where
  trans x y z := by
    unfold ascRel tsAscLEb
    rcases x.ts with _ | a <;> rcases y.ts with _ | b <;> rcases z.ts with _ | c <;> simp
    exact fun h h2 => Nat.le_trans h h2

instance : IsTotal CRec descRel where
  total x y := by
    unfold descRel tsDescLEb
    rcases x.ts with _ | a <;> rcases y.ts with _ | b <;> simp
    exact Nat.le_total b a

instance : IsTrans CRec descRel where
  trans x y z := by
    unfold descRel tsDescLEb
    rcases x.ts with _ | a <;> rcases y.ts with _ | b <;> rcases z.ts with _ | c <;> simp
    exact fun h h2 => Nat.le_trans h2 h

/-- `drop_duplicates(subset=[key], keep="last")`: a row survives exactly when no later row
shares its key; the surviving rows keep their relative order. -/
def dedupKeepLast (key : α → String) : List α → List α
  | [] => []
  | x :: xs =>
      if xs.any (fun y => key y == key x) then dedupKeepLast key xs
      else x :: dedupKeepLast key xs

/-- The merge/deduplication stage of `scrape_all_sources` (utils.py lines 135-144):
concatenate (the input list), coerce timestamps (NaT for unparsable), sort ascending by
timestamp, drop duplicate texts keeping the last, sort descending by timestamp.
pandas' default sort is not stability-guaranteed; a deterministic insertion sort is used,
matching the spec's note that equal-timestamp tie-breaks are implementation-defined. -/
def mergeStage (parse : String → Option Nat) (l : List MsgRec) : List CRec :=
  List.insertionSort descRel
    (dedupKeepLast (fun c : CRec => c.text)
      (List.insertionSort ascRel (l.map (coerceRec parse))))

example :
    mergeStage (fun s => if s = "t7" then some 7 else none)
      [⟨1, "p", "a", "t7"⟩] = [⟨1, "p", "a", some 7⟩] := by decide

/- ================================================================
   src/main.py lines 67-75 — result merger
   ================================================================ -/

/-- One row of `df_merged = pd.merge(df_combined, df, on=["id","platform"], how="left")`:
the original record plus the verdict columns, `none` when the left join found no
matching verdict (pandas fills NaN). -/
structure JoinedRow where
  record : CRec
  verdict : Option VerdictRow
deriving DecidableEq, Repr

/-- The `keep` column cell of a joined row (NaN for an unmatched record). -/
def keepCell (j : JoinedRow) : Option PdVal :=
  j.verdict.map VerdictRow.keep

/-- A row of the public result: the `keep` column has been dropped. -/
structure PubRow where
  record : CRec
  score : Option PdVal
  tags : Option (List String)
deriving DecidableEq, Repr

/-- Dropping the internal `keep` column (`df_filtered.drop(columns=["keep"])`). -/
def stripKeep (j : JoinedRow) : PubRow :=
  { record := j.record, score := j.verdict.map VerdictRow.score,
    tags := j.verdict.map VerdictRow.tags }

/-- The elementwise test `df_merged["keep"] != False`: comparing a cell with the Python
boolean `False` is false only for the boolean value False itself; NaN (an unmatched
record), strings and True all compare unequal and are retained. -/
def pdNeFalse : Option PdVal → Bool
  | some (PdVal.bool false) => false
  | _ => true

/-- The left join on `(id, platform)`: every record row is paired with each matching
verdict row; a record with no match yields a single row with NaN verdict columns. -/
def leftJoin (recs : List CRec) (vs : List VerdictRow) : List JoinedRow :=
  recs.flatMap (fun r =>
    match vs.filter (fun v => v.id == r.id && v.platform == r.platform) with
    | [] => [{ record := r, verdict := none }]
    | ms => ms.map (fun v => { record := r, verdict := some v }))

/-- The result merger of `main` (main.py lines 67-75): left-join verdicts onto records,
keep the rows whose `keep` cell is not the boolean False, drop the `keep` column. -/
def finalize (recs : List CRec) (vs : List VerdictRow) : List PubRow :=
  ((leftJoin recs vs).filter (fun j => pdNeFalse (keepCell j))).map stripKeep

example :
    finalize [⟨1, "discord", "t", some 5⟩]
      [⟨1, "discord", PdVal.bool false, PdVal.str "0.9", []⟩] = [] := by decide
example :
    finalize [⟨1, "discord", "t", some 5⟩] []
      = [⟨⟨1, "discord", "t", some 5⟩, none, none⟩] := by decide

/- ================================================================
   Scrape statistics and the source connectors
   ================================================================ -/

/-- Modelled from the spec: `src/types.py` (defining `ScrapeStats`) is not under `src/`.
Spec section 3: fields `channel_id`, `platform`, `pulled` (count examined before
filtering), `kept` (count surviving filtering), `success` (bool), `error` (nullable
string).  The connectors' success paths construct it passing only the first four fields
(discord_scrap.py line 154, telegram_scrap.py lines 145 and 152), so the constructor must
default the last two; success-path entries denote successes, hence `success := true` and
`error := none` as defaults. -/
structure ScrapeStats where
  channel_id : String
  platform : String
  pulled : Nat
  kept : Nat
  success : Bool := true
  error : Option String := none
deriving DecidableEq, Repr

/- ----------------------------------------------------------------
   src/src/scraper/discord_scrap.py — DiscordScraper.fetch_and_filter_messages
   ---------------------------------------------------------------- -/

/-- One raw Discord message as delivered by the REST API.  `tsRaw` is the
`msg["timestamp"]` string; `time` is the result of `datetime.fromisoformat` on it
(`none` when parsing raises); `embeds` are the `embed.get("url")` values. -/
structure RawMsg where
  id : Nat
  tsRaw : String
  time : Option Nat
  content : String
  username : String
  uid : Nat
  embeds : List (Option String)
deriving DecidableEq, Repr

/-- One HTTP interaction of the paging loop, as the code distinguishes them:
a 200 page of messages, a 429 rate limit, 401/403 authorization errors, a 404,
any other status, or a raised `aiohttp.ClientError`/`asyncio.TimeoutError`. -/
inductive PageResp where
  | ok (msgs : List RawMsg)
  | rate
  | unauth
  | forbidden
  | notFound
  | otherStatus
  | netErr
deriving DecidableEq, Repr

/-- The in-window scan of one page (discord_scrap.py lines 96-107): messages with
unparsable timestamps are skipped (`continue`), a message at or after the cutoff is
collected, and the first strictly older message halts the scan (`break`), since pages
are delivered newest-first. -/
def takeInWindow (cutoff : Nat) : List RawMsg → List RawMsg
  | [] => []
  | m :: ms =>
      match m.time with
      | none => takeInWindow cutoff ms
      | some t => if cutoff ≤ t then m :: takeInWindow cutoff ms else []

/-- The paging loop of `fetch_and_filter_messages` (lines 50-117), driven by the script
of HTTP interactions.  `retryCount` mirrors `retry_count`: it is incremented on a network
error (breaking once it reaches `maxRetries`), and reset to 0 whenever a response is
received.  A 429 sleeps and retries; 401/403 raise `PermissionError` and 404 raises
`ValueError` (modelled as `Except.error`); another status breaks.  On a 200 page the
in-window prefix is appended and paging continues only when both the page and its
in-window prefix have exactly 100 messages (the `before` cursor is part of the request,
not of the observable result, and is not modelled).  An exhausted script ends the loop. -/
def fetchPages (cutoff maxRetries : Nat) :
    Nat → List PageResp → List RawMsg → Except String (List RawMsg)
  | _, [], acc => Except.ok acc
  | retryCount, r :: rest, acc =>
      match r with
      | PageResp.netErr =>
          if maxRetries ≤ retryCount + 1 then Except.ok acc
          else fetchPages cutoff maxRetries (retryCount + 1) rest acc
      | PageResp.rate => fetchPages cutoff maxRetries 0 rest acc
      | PageResp.unauth =>
          Except.error "PermissionError: invalid token or missing permission"
      | PageResp.forbidden => Except.error "PermissionError: bot lacks access"
      | PageResp.notFound => Except.error "ValueError: channel not found"
      | PageResp.otherStatus => Except.ok acc
      | PageResp.ok msgs =>
          if msgs.isEmpty then Except.ok acc
          else
            let valid := takeInWindow cutoff msgs
            if valid.isEmpty then Except.ok acc
            else if msgs.length = 100 ∧ valid.length = 100 then
              fetchPages cutoff maxRetries 0 rest (acc ++ valid)
            else Except.ok (acc ++ valid)

/-- Link extraction from embeds (lines 130-136): keep string urls that are nonempty
after stripping. -/
def extractEmbedLinks (embeds : List (Option String)) : List String :=
  embeds.filterMap (fun o =>
    match o with
    | none => none
    | some u =>
        let c : String := ⟨pyStrip u.data⟩
        if c = "" then none else some c)

/-- One row of the Discord result DataFrame (lines 138-146): the raw timestamp string is
stored; `normalize` stands for `filter_text` (the external cleantext normalizer). -/
structure DRec where
  id : Nat
  text : String
  timestamp : String
  author : String
  platform : String
  links : List String
deriving DecidableEq, Repr

def mkDRec (normalize : String → String) (m : RawMsg) : DRec :=
  { id := m.id, text := normalize m.content, timestamp := m.tsRaw,
    author := m.username ++ "#" ++ toString m.uid, platform := "discord",
    links := extractEmbedLinks m.embeds }

/-- `DiscordScraper.fetch_and_filter_messages`: page within the window, then filter out
low-value messages; `pulled` counts every in-window message and `kept` the survivors.
Line 153 sorts and deduplicates into a discarded expression, so it has no effect on the
returned DataFrame.  Authorization/not-found errors raised inside the loop propagate out
of the method (there is no handler for them). -/
def fetchAndFilterMessages (normalize : String → String) (channelId : String)
    (cutoff maxRetries : Nat) (script : List PageResp) :
    Except String (List DRec × ScrapeStats) :=
  match fetchPages cutoff maxRetries 0 script [] with
  | Except.error e => Except.error e
  | Except.ok allMessages =>
      let filteredData := allMessages.filterMap (fun m =>
        if is_low_value_message m.content then none else some (mkDRec normalize m))
      Except.ok (filteredData,
        { channel_id := channelId, platform := "discord",
          pulled := allMessages.length, kept := filteredData.length })

/- ----------------------------------------------------------------
   src/src/scraper/telegram_scrap.py — TelegramScraper.scrape_24h_to_df_telegram
   ---------------------------------------------------------------- -/

/-- One Telegram message as yielded by `iter_messages` (newest first).  `text = ""`
models a falsy `message.text`; `fromUser` is set when `message.from_id` is a `PeerUser`;
`peerChannel` when the peer carries a `channel_id`; `links` are the already-stripped
`MessageEntityTextUrl` urls. -/
structure TMsg where
  id : Nat
  date : Nat
  text : String
  fromUser : Option Nat
  peerChannel : Option Nat
  links : List String
deriving DecidableEq, Repr

/-- One row of the Telegram result DataFrame (lines 123-131): the timestamp column holds
the message date itself. -/
structure TRec where
  id : Nat
  text : String
  time : Nat
  author : Option String
  platform : String
  links : List String
deriving DecidableEq, Repr

/-- Author extraction (lines 105-110). -/
def tAuthor (m : TMsg) : Option String :=
  match m.fromUser with
  | some u => some (toString u)
  | none =>
      match m.peerChannel with
      | some c => some ("admin#" ++ toString c)
      | none => none

def mkTRec (normalize : String → String) (m : TMsg) : TRec :=
  { id := m.id, text := normalize m.text, time := m.date, author := tAuthor m,
    platform := "telegram", links := m.links }

/-- The message loop of `scrape_24h_to_df_telegram` (lines 88-131): iteration halts at
the first message older than the cutoff; messages without text are skipped (before the
pulled counter of line 100); low-value messages are skipped after it; the rest become
records. -/
def telegramCollect (normalize : String → String) (cutoff : Nat) : List TMsg → List TRec
  | [] => []
  | m :: ms =>
      if m.date < cutoff then []
      else if m.text = "" then telegramCollect normalize cutoff ms
      else if is_low_value_message m.text then telegramCollect normalize cutoff ms
      else mkTRec normalize m :: telegramCollect normalize cutoff ms

/-- The count accumulated by `total_pulled += 1` at line 100: every in-window message
with text, counted before the low-value filter.  (Line 133 later overwrites the
variable.) -/
def telegramConsidered (cutoff : Nat) : List TMsg → Nat
  | [] => 0
  | m :: ms =>
      if m.date < cutoff then 0
      else if m.text = "" then telegramConsidered cutoff ms
      else 1 + telegramConsidered cutoff ms

/-- Ascending sort relation on Telegram rows for `df.sort_values("timestamp")`
(timestamps here are genuine datetimes, never NaT). -/
def tAscRel (x y : TRec) : Prop := x.time ≤ y.time

instance : DecidableRel tAscRel := fun x y => Nat.decLe x.time y.time

/-- `TelegramScraper.scrape_24h_to_df_telegram`, driven by the scripted outcome of
`get_entity` + `iter_messages` (an exception anywhere in the try block lands in the
`except` of line 148).  On success, line 133 RE-ASSIGNS `total_pulled = len(records)`
(overwriting the count of line 100), the DataFrame is sorted by timestamp and
deduplicated by text keeping the last, and `kept` is its final length.  On the exception
path an empty frame is returned with a stats entry passing only pulled=0, kept=0 —
`success`/`error` are left at the constructor defaults. -/
def scrape24hTelegram (normalize : String → String) (groupId : String) (cutoff : Nat)
    (input : Except String (List TMsg)) : List TRec × ScrapeStats :=
  match input with
  | Except.error _ =>
      ([], { channel_id := groupId, platform := "telegram", pulled := 0, kept := 0 })
  | Except.ok msgs =>
      let records := telegramCollect normalize cutoff msgs
      let pulled := records.length
      let df := dedupKeepLast (fun r : TRec => r.text) (List.insertionSort tAscRel records)
      (df, { channel_id := groupId, platform := "telegram",
             pulled := pulled, kept := df.length })

/- ----------------------------------------------------------------
   The analytics-endpoint connector and the fan-out orchestrator
   (src/src/utils.py scrape_all_sources)
   ---------------------------------------------------------------- -/

/-- One item delivered by the analytics endpoint. -/
structure ElfaItem where
  time : Nat
  text : String
deriving DecidableEq, Repr

/-- Modelled from the spec: `src/src/scraper/elfa_scrap.py` (`ElfaScraper.fetch_endpoint`)
is not under `src/`.  Spec sections 4.1 and 3: the connector considers each item inside
the trailing window (`pulled` counts every item considered, pre-filter) and retains those
passing the low-value filter (`kept` counts items retained post-filter). -/
def elfaFetchEndpoint (cutoff : Nat) (endpointName : String) (items : List ElfaItem) :
    List ElfaItem × ScrapeStats :=
  let inWindow := items.filter (fun i => cutoff ≤ i.time)
  let keptItems := inWindow.filter (fun i => !is_low_value_message i.text)
  (keptItems, { channel_id := endpointName, platform := "elfa",
                pulled := inWindow.length, kept := keptItems.length })

/-- The `_scrape_discord` task body (utils.py lines 61-78): the connector outcome is
caught at the task boundary; an exception becomes a failed stats entry with pulled=0,
kept=0, success=False and the cause in `error`. -/
def discordTaskStats (channelId : String)
    (res : Except String (List DRec × ScrapeStats)) : ScrapeStats :=
  match res with
  | Except.ok (_, st) => st
  | Except.error e =>
      { channel_id := channelId, platform := "discord", pulled := 0, kept := 0,
        success := false, error := some e }

/-- The `_scrape_telegram` task body (utils.py lines 80-101), same containment. -/
def telegramTaskStats (groupId : String)
    (res : Except String (List TRec × ScrapeStats)) : ScrapeStats :=
  match res with
  | Except.ok (_, st) => st
  | Except.error e =>
      { channel_id := groupId, platform := "telegram", pulled := 0, kept := 0,
        success := false, error := some e }

/-- The `_scrape_elfa` task body (utils.py lines 103-122).  Its `except` block formats
`title_elfa` into the alert message, but `title_elfa` is assigned only at line 110,
after the `fetch_endpoint` call of line 106: when the fetch raises, the handler itself
raises `UnboundLocalError`, so the task fails instead of producing a stats entry. -/
def elfaTaskStats (endpointUrl : String)
    (res : Except String (List ElfaItem × ScrapeStats)) : Except String ScrapeStats :=
  match res with
  | Except.ok (_, st) => Except.ok st
  | Except.error _ =>
      Except.error "UnboundLocalError: local variable title_elfa referenced before assignment"

/-- The stats side of `scrape_all_sources` (utils.py lines 124-132): one task per source,
awaited by `asyncio.gather` without `return_exceptions`, so an exception escaping any
task propagates to the orchestrator's caller and the run aborts; otherwise every task's
stats entry is collected. -/
def scrapeAllSourcesStats
    (discordResults : List (String × Except String (List DRec × ScrapeStats)))
    (telegramResults : List (String × Except String (List TRec × ScrapeStats)))
    (elfaResults : List (String × Except String (List ElfaItem × ScrapeStats))) :
    Except String (List ScrapeStats) := do
  let elfaStats ← elfaResults.mapM (fun p => elfaTaskStats p.1 p.2)
  pure (discordResults.map (fun p => discordTaskStats p.1 p.2)
    ++ telegramResults.map (fun p => telegramTaskStats p.1 p.2)
    ++ elfaStats)

/- ================================================================
   Helper lemmas
   ================================================================ -/

lemma classifyBatch_of_not_accepted (batch : List InItem) (outcomes : Nat → LLMOutcome)
    (h : accepts batch (outcomes 0) = false) :
    classifyBatch batch outcomes = fallbackBatch batch := by
  unfold classifyBatch attemptResult
  rcases ho : outcomes 0 with _ | p
  · rfl
  · rcases p with _ | vs
    · rfl
    · rw [ho] at h
      simp only [accepts] at h
      have hne : vs.length ≠ batch.length := by simpa using h
      simp [hne]

lemma pdNeFalse_eq_true_iff (o : Option PdVal) :
    pdNeFalse o = true ↔ o ≠ some (PdVal.bool false) := by
  rcases o with _ | v
  · simp [pdNeFalse]
  · rcases v with s | b
    · simp [pdNeFalse]
    · cases b <;> simp [pdNeFalse]

/- ================================================================
   Claim theorems
   ================================================================ -/

/-- Sample message item used in concrete instances. -/
def sampleItem : InItem := { id := 101, platform := "discord", text := "example text", links := [] }

/-- Sample accepted verdict used in concrete instances. -/
def sampleVerdict : VerdictRow :=
  { id := 101, platform := "discord", keep := PdVal.str "true",
    score := PdVal.str "0.92", tags := ["news"] }

/-- Attempt script for the C1 failing input: the first scoring call raises (timeout),
while the second and third attempts would return a valid same-length verdict list. -/
def c1Outcomes : Nat → LLMOutcome :=
  fun k => if k = 0 then LLMOutcome.exc else LLMOutcome.resp (some [sampleVerdict])

/-- Claim C1 (code_bug).  The claim says a failed batch is retried up to 3 attempts with
backoff and the fallback is produced only after all 3 attempts exhaust.  In the code the
fallback `return` sits inside the loop body after the `try`/`except`, so it executes at
the end of the first iteration on every non-accepted path: on the failing input below the
first attempt raises, attempts 2 and 3 would be accepted, yet the whole batch receives
the fallback verdicts — the attempt cap is never reached. -/
theorem c1_fallback_before_cap :
    classifyBatch [sampleItem] c1Outcomes = fallbackBatch [sampleItem]
    ∧ accepts [sampleItem] (c1Outcomes 1) = true
    ∧ accepts [sampleItem] (c1Outcomes 2) = true := by
  decide

/-- Claim C2 (confirmed).  A scoring response is accepted exactly when it parses to a
list whose length equals the batch length: a same-length list response is returned
as-is, a wrong-length list is treated like a non-list response or a raised transport
error, and a batch that never receives an accepted response gets the fallback verdict
for every one of its items (per-batch, never partial). -/
theorem c2_accept_iff_same_length (batch : List InItem) (outcomes : Nat → LLMOutcome) :
    ((∀ k, k < 3 → accepts batch (outcomes k) = false) →
        classifyBatch batch outcomes = fallbackBatch batch)
    ∧ (∀ vs, outcomes 0 = LLMOutcome.resp (some vs) →
        classifyBatch batch outcomes =
          if vs.length = batch.length then vs else fallbackBatch batch)
    ∧ (outcomes 0 = LLMOutcome.exc → classifyBatch batch outcomes = fallbackBatch batch)
    ∧ (outcomes 0 = LLMOutcome.resp none →
        classifyBatch batch outcomes = fallbackBatch batch) := by
  refine ⟨?_, ?_, ?_, ?_⟩
  · intro h
    exact classifyBatch_of_not_accepted batch outcomes (h 0 (by omega))
  · intro vs h
    simp [classifyBatch, attemptResult, h]
  · intro h
    simp [classifyBatch, attemptResult, h]
  · intro h
    simp [classifyBatch, attemptResult, h]

/-- Witness for C2 at a concrete input: a batch of one item whose only response raises
falls back for its single item. -/
theorem c2_accept_iff_same_length_witness :
    classifyBatch [sampleItem] (fun _ => LLMOutcome.exc) = fallbackBatch [sampleItem] :=
  (c2_accept_iff_same_length [sampleItem] (fun _ => LLMOutcome.exc)).1
    (fun _ _ => rfl)

/-- Claim C3 (corrected), counterexample.  The claim says a fallback verdict has `keep`
equal to the boolean false (and `score` the float 0.0); the code builds the Python
string "false" (and the string "0.0"), which is a different value. -/
theorem c3_cex :
    (classifyBatch [sampleItem] (fun _ => LLMOutcome.exc)).map VerdictRow.keep
        = [PdVal.str "false"]
    ∧ PdVal.str "false" ≠ PdVal.bool false := by
  decide

/-- Claim C3 (corrected), amended: every verdict produced via the fallback path has
`keep` equal to the string "false", `score` equal to the string "0.0", and an empty tags
list, for every item of every fallen-back batch. -/
theorem c3_fallback_fields_amended (batch : List InItem) (outcomes : Nat → LLMOutcome)
    (h : ∀ k, k < 3 → accepts batch (outcomes k) = false) :
    ∀ v ∈ classifyBatch batch outcomes,
      v.keep = PdVal.str "false" ∧ v.score = PdVal.str "0.0" ∧ v.tags = [] := by
  intro v hv
  rw [classifyBatch_of_not_accepted batch outcomes (h 0 (by omega))] at hv
  rcases List.mem_map.mp hv with ⟨item, _, rfl⟩
  exact ⟨rfl, rfl, rfl⟩

/-- Witness for the amended C3 at a concrete input. -/
theorem c3_fallback_fields_amended_witness :
    (fallbackVerdict sampleItem).keep = PdVal.str "false"
    ∧ (fallbackVerdict sampleItem).score = PdVal.str "0.0"
    ∧ (fallbackVerdict sampleItem).tags = [] :=
  c3_fallback_fields_amended [sampleItem] (fun _ => LLMOutcome.exc) (fun _ _ => rfl)
    (fallbackVerdict sampleItem) (by decide)

/-- Claim C4 (confirmed).  The result merger excludes exactly the joined rows whose
`keep` cell is the explicit boolean False: every output row comes from a joined row whose
keep cell differs from `some (bool false)` with the keep column stripped; every such
joined row survives; and a record with no matching verdict (empty key match on
(id, platform)) is retained as a row with empty verdict columns. -/
theorem c4_merger_filter (recs : List CRec) (vs : List VerdictRow) :
    (∀ out ∈ finalize recs vs, ∃ j, j ∈ leftJoin recs vs ∧ out = stripKeep j
        ∧ keepCell j ≠ some (PdVal.bool false))
    ∧ (∀ j ∈ leftJoin recs vs, keepCell j ≠ some (PdVal.bool false) →
        stripKeep j ∈ finalize recs vs)
    ∧ (∀ r ∈ recs,
        vs.filter (fun v => v.id == r.id && v.platform == r.platform) = [] →
        stripKeep { record := r, verdict := none } ∈ finalize recs vs) := by
  refine ⟨?_, ?_, ?_⟩
  · intro out hout
    rcases List.mem_map.mp hout with ⟨j, hj, rfl⟩
    rcases List.mem_filter.mp hj with ⟨hjl, hne⟩
    exact ⟨j, hjl, rfl, (pdNeFalse_eq_true_iff (keepCell j)).mp hne⟩
  · intro j hj hne
    exact List.mem_map_of_mem stripKeep
      (List.mem_filter.mpr ⟨hj, (pdNeFalse_eq_true_iff (keepCell j)).mpr hne⟩)
  · intro r hr hempty
    have hmem : ({ record := r, verdict := none } : JoinedRow) ∈ leftJoin recs vs := by
      unfold leftJoin
      refine List.mem_flatMap.mpr ⟨r, hr, ?_⟩
      rw [hempty]
      exact List.mem_singleton.mpr rfl
    exact List.mem_map_of_mem stripKeep
      (List.mem_filter.mpr ⟨hmem, (pdNeFalse_eq_true_iff _).mpr (by simp [keepCell])⟩)

/-- Sample merged record used in concrete instances. -/
def sampleCRec : CRec := { id := 7, platform := "telegram", text := "hello world", ts := some 40 }

/-- Witness for C4 at a concrete input: a record with no matching verdict is retained. -/
theorem c4_merger_filter_witness :
    stripKeep { record := sampleCRec, verdict := none } ∈ finalize [sampleCRec] [] :=
  (c4_merger_filter [sampleCRec] []).2.2 sampleCRec (by decide) rfl

/- ================================================================
   Deduplication lemmas for the merge stage
   ================================================================ -/

lemma dedupKeepLast_subset (key : α → String) (l : List α) :
    ∀ c ∈ dedupKeepLast key l, c ∈ l := by
  induction l with
  | nil => simp [dedupKeepLast]
  | cons x xs ih =>
      intro c hc
      unfold dedupKeepLast at hc
      split at hc
      · exact List.mem_cons_of_mem x (ih c hc)
      · rcases List.mem_cons.mp hc with rfl | hc2
        · exact List.mem_cons_self _ _
        · exact List.mem_cons_of_mem x (ih c hc2)

lemma dedupKeepLast_length_le (key : α → String) (l : List α) :
    (dedupKeepLast key l).length ≤ l.length := by
  induction l with
  | nil => simp [dedupKeepLast]
  | cons x xs ih =>
      unfold dedupKeepLast
      split
      · exact Nat.le_succ_of_le ih
      · simpa using Nat.succ_le_succ ih

lemma dedupKeepLast_key_surj (key : α → String) (l : List α) :
    ∀ c' ∈ l, ∃ c ∈ dedupKeepLast key l, key c = key c' := by
  induction l with
  | nil => simp
  | cons x xs ih =>
      intro c' hc'
      unfold dedupKeepLast
      split
      · rename_i hany
        rcases List.mem_cons.mp hc' with rfl | hmem
        · rcases List.any_eq_true.mp hany with ⟨y, hy, hkey⟩
          rcases ih y hy with ⟨c, hc, hk⟩
          exact ⟨c, hc, by rw [hk]; exact beq_iff_eq.mp hkey⟩
        · exact ih c' hmem
      · rcases List.mem_cons.mp hc' with rfl | hmem
        · exact ⟨c', List.mem_cons_self _ _, rfl⟩
        · rcases ih c' hmem with ⟨c, hc, hk⟩
          exact ⟨c, List.mem_cons_of_mem x hc, hk⟩

/-- In a sorted list, the survivor of a key group under keep-last deduplication is
related-above every member of its group (pandas: the last row of a sorted group is its
maximum). -/
lemma sorted_dedupKeepLast_rel (key : α → String) (r : α → α → Prop)
    (hrefl : ∀ a, r a a) :
    ∀ m : List α, List.Sorted r m →
      ∀ c ∈ dedupKeepLast key m, ∀ c' ∈ m, key c' = key c → r c' c := by
  intro m
  induction m with
  | nil => intro _; simp
  | cons x xs ih =>
      intro hs c hc c' hc' hkey
      have hx : ∀ b ∈ xs, r x b := (List.sorted_cons.mp hs).1
      have hs2 : List.Sorted r xs := (List.sorted_cons.mp hs).2
      unfold dedupKeepLast at hc
      split at hc
      · rcases List.mem_cons.mp hc' with rfl | hmem
        · exact hx c (dedupKeepLast_subset key xs c hc)
        · exact ih hs2 c hc c' hmem hkey
      · rename_i hany
        rcases List.mem_cons.mp hc with rfl | hc2
        · rcases List.mem_cons.mp hc' with rfl | hmem
          · exact hrefl c'
          · refine absurd (List.any_eq_true.mpr ⟨c', hmem, ?_⟩) hany
            exact beq_iff_eq.mpr hkey
        · rcases List.mem_cons.mp hc' with rfl | hmem
          · exact hx c (dedupKeepLast_subset key xs c hc2)
          · exact ih hs2 c hc2 c' hmem hkey

lemma ascRel_refl (x : CRec) : ascRel x x := by
  unfold ascRel tsAscLEb
  rcases x.ts with _ | a <;> simp

lemma mem_mergeStage_iff (parse : String → Option Nat) (l : List MsgRec) (c : CRec) :
    c ∈ mergeStage parse l ↔
      c ∈ dedupKeepLast (fun c : CRec => c.text)
          (List.insertionSort ascRel (l.map (coerceRec parse))) := by
  unfold mergeStage
  exact (List.perm_insertionSort descRel _).mem_iff

/-- Claim C5 (confirmed).  The merge output is sorted descending by timestamp (NaT
placed last), and among input records sharing identical text with parseable, differing
timestamps, the earlier one never survives the merge while some record with that text
and a timestamp at least the later one does. -/
theorem c5_latest_survives (parse : String → Option Nat) (l : List MsgRec) :
    List.Sorted descRel (mergeStage parse l)
    ∧ ∀ r1 ∈ l, ∀ r2 ∈ l, r1.text = r2.text →
        ∀ a b, parse r1.ts = some a → parse r2.ts = some b → a < b →
          coerceRec parse r1 ∉ mergeStage parse l
          ∧ ∃ c ∈ mergeStage parse l, c.text = r2.text ∧ tsAscLEb (some b) c.ts = true := by
  constructor
  · exact List.sorted_insertionSort descRel _
  · intro r1 h1 r2 h2 htext a b ha hb hab
    have hsorted : List.Sorted ascRel (List.insertionSort ascRel (l.map (coerceRec parse))) :=
      List.sorted_insertionSort ascRel _
    have hmem2 : coerceRec parse r2 ∈ List.insertionSort ascRel (l.map (coerceRec parse)) :=
      (List.perm_insertionSort ascRel _).mem_iff.mpr (List.mem_map_of_mem _ h2)
    constructor
    · intro hc
      have hc2 := (mem_mergeStage_iff parse l _).mp hc
      have hrel := sorted_dedupKeepLast_rel (fun c : CRec => c.text) ascRel ascRel_refl
        _ hsorted _ hc2 (coerceRec parse r2) hmem2 (by simp [coerceRec, htext])
      unfold ascRel at hrel
      rw [show (coerceRec parse r2).ts = some b by simp [coerceRec, hb],
          show (coerceRec parse r1).ts = some a by simp [coerceRec, ha]] at hrel
      simp [tsAscLEb] at hrel
      omega
    · rcases dedupKeepLast_key_surj (fun c : CRec => c.text) _ (coerceRec parse r2) hmem2
        with ⟨c, hcmem, hkey⟩
      have hctext : c.text = r2.text := by simpa [coerceRec] using hkey
      refine ⟨c, (mem_mergeStage_iff parse l c).mpr hcmem, hctext, ?_⟩
      have hrel := sorted_dedupKeepLast_rel (fun c : CRec => c.text) ascRel ascRel_refl
        _ hsorted c hcmem (coerceRec parse r2) hmem2 (by simpa [coerceRec] using hkey.symm)
      unfold ascRel at hrel
      rw [show (coerceRec parse r2).ts = some b by simp [coerceRec, hb]] at hrel
      exact hrel

/-- Concrete parse function and record pair for the C5 and C6 instances. -/
def cParse : String → Option Nat :=
  fun s => if s = "t3" then some 3 else if s = "t5" then some 5 else none

def c5r1 : MsgRec := { id := 1, platform := "p", text := "dup text", ts := "t3" }

def c5r2 : MsgRec := { id := 2, platform := "p", text := "dup text", ts := "t5" }

/-- Witness for C5 at a concrete input: of two records with equal text and timestamps
3 < 5, the earlier one is not in the merge output and a record with that text and
timestamp at least 5 is. -/
theorem c5_latest_survives_witness :
    coerceRec cParse c5r1 ∉ mergeStage cParse [c5r1, c5r2]
    ∧ ∃ c ∈ mergeStage cParse [c5r1, c5r2],
        c.text = c5r2.text ∧ tsAscLEb (some 5) c.ts = true :=
  (c5_latest_survives cParse [c5r1, c5r2]).2 c5r1 (by decide) c5r2 (by decide) rfl
    3 5 (by decide) (by decide) (by decide)

/-- Record with an unparsable timestamp for the C6 counterexample. -/
def c6rec : MsgRec := { id := 1, platform := "p", text := "hello world", ts := "not-a-date" }

/-- Claim C6 (corrected), counterexample.  The claim says records with unparsable
timestamps are dropped from the merge output; in the code `pd.to_datetime(...,
errors='coerce')` turns them into NaT and nothing removes them: a single record whose
timestamp fails to parse appears in the merge output with a null timestamp. -/
theorem c6_cex :
    mergeStage cParse [c6rec]
      = [{ id := 1, platform := "p", text := "hello world", ts := none }] := by
  decide

/-- Claim C6 (corrected), amended: records whose timestamps cannot be parsed are coerced
to a null timestamp (NaT) and retained by the merge stage — every output row is the
timestamp-coercion of some input record, and every input record's text survives into the
output (rows are removed only by text deduplication, never for an unparsable
timestamp). -/
theorem c6_unparsable_retained_amended (parse : String → Option Nat) (l : List MsgRec) :
    (∀ r ∈ l, ∃ c ∈ mergeStage parse l, c.text = r.text)
    ∧ (∀ c ∈ mergeStage parse l, ∃ r ∈ l, c = coerceRec parse r) := by
  constructor
  · intro r hr
    have hmem : coerceRec parse r ∈ List.insertionSort ascRel (l.map (coerceRec parse)) :=
      (List.perm_insertionSort ascRel _).mem_iff.mpr (List.mem_map_of_mem _ hr)
    rcases dedupKeepLast_key_surj (fun c : CRec => c.text) _ (coerceRec parse r) hmem
      with ⟨c, hcmem, hkey⟩
    exact ⟨c, (mem_mergeStage_iff parse l c).mpr hcmem, by simpa [coerceRec] using hkey⟩
  · intro c hc
    have hc2 := dedupKeepLast_subset (fun c : CRec => c.text) _ c
      ((mem_mergeStage_iff parse l c).mp hc)
    have hc3 : c ∈ l.map (coerceRec parse) :=
      (List.perm_insertionSort ascRel _).mem_iff.mp hc2
    rcases List.mem_map.mp hc3 with ⟨r, hr, hre⟩
    exact ⟨r, hr, hre.symm⟩

/-- Witness for the amended C6 at a concrete input: the unparsable-timestamp record's
text survives the merge. -/
theorem c6_unparsable_retained_amended_witness :
    ∃ c ∈ mergeStage cParse [c6rec], c.text = c6rec.text :=
  (c6_unparsable_retained_amended cParse [c6rec]).1 c6rec (by decide)

/-- Claim C7 (corrected), counterexample.  The claim says no connector variant ever
throws past its own boundary and that unrecoverable errors land in the stats as
success=false with the cause in error.  The Discord connector raises its authorization
error (HTTP 401) to the caller instead; and the Telegram connector's failure path builds
its stats entry passing only pulled=0/kept=0, recording no error cause. -/
theorem c7_cex :
    fetchAndFilterMessages (fun s => s) "c1" 0 3 [PageResp.unauth]
      = Except.error "PermissionError: invalid token or missing permission"
    ∧ (scrape24hTelegram (fun s => s) "g1" 0 (Except.error "boom")).2.error = none
    ∧ (scrape24hTelegram (fun s => s) "g1" 0 (Except.error "boom")).2.success = true :=
  ⟨rfl, rfl, rfl⟩

/-- Claim C7 (corrected), amended: the Telegram connector never throws past its
boundary — any unrecoverable error yields an empty record set plus a stats entry with
pulled=0 and kept=0 whose success/error fields are left at their constructor defaults
(no explicit success=false, no cause) — while the Discord connector raises
authorization (401/403) and not-found (404) errors past its boundary to the caller
rather than capturing them in stats. -/
theorem c7_boundary_amended (normalize : String → String) :
    (∀ (groupId : String) (cutoff : Nat) (e : String),
        scrape24hTelegram normalize groupId cutoff (Except.error e)
          = ([], { channel_id := groupId, platform := "telegram", pulled := 0, kept := 0,
                   success := true, error := none }))
    ∧ (∀ (channelId : String) (cutoff maxRetries : Nat) (rest : List PageResp),
        fetchAndFilterMessages normalize channelId cutoff maxRetries
            (PageResp.unauth :: rest)
          = Except.error "PermissionError: invalid token or missing permission"
        ∧ fetchAndFilterMessages normalize channelId cutoff maxRetries
            (PageResp.forbidden :: rest)
          = Except.error "PermissionError: bot lacks access"
        ∧ fetchAndFilterMessages normalize channelId cutoff maxRetries
            (PageResp.notFound :: rest)
          = Except.error "ValueError: channel not found") :=
  ⟨fun _ _ _ => rfl, fun _ _ _ _ => ⟨rfl, rfl, rfl⟩⟩

/-- Sample successful Discord stats entry used in concrete instances. -/
def sampleDStats : ScrapeStats :=
  { channel_id := "c1", platform := "discord", pulled := 5, kept := 3 }

/-- Claim C8 (code_bug).  The claim says an exception inside one connector invocation is
converted into a failed stats entry and the run never aborts because one source task
failed.  That is what the discord/telegram task handlers do (second conjunct), but the
elfa task's except block reads `title_elfa` before its assignment, so on a failing elfa
fetch the handler raises `UnboundLocalError`, `asyncio.gather` propagates it, and the
whole orchestrator call aborts (first conjunct) instead of collecting the other tasks'
stats. -/
theorem c8_elfa_failure_aborts_run :
    scrapeAllSourcesStats
        [("c1", Except.ok ([], sampleDStats))]
        [("g1", Except.error "RPCError: CHANNEL_INVALID")]
        [("u1", Except.error "ClientConnectionError: connection reset")]
      = Except.error "UnboundLocalError: local variable title_elfa referenced before assignment"
    ∧ telegramTaskStats "g1" (Except.error "RPCError: CHANNEL_INVALID")
      = { channel_id := "g1", platform := "telegram", pulled := 0, kept := 0,
          success := false, error := some "RPCError: CHANNEL_INVALID" } :=
  ⟨rfl, rfl⟩

/-- Claim C9 (confirmed).  In every stats entry produced on any input, on success and
failure paths alike, kept is at most pulled: for the Discord connector (whose kept
records are a filtration of the pulled in-window messages), the Telegram connector
(whose kept count is the deduplication of the pulled records, and 0/0 on the exception
path), the spec-modelled analytics connector, and the orchestrator's failure entries. -/
theorem c9_kept_le_pulled :
    (∀ (normalize : String → String) (channelId : String) (cutoff maxRetries : Nat)
        (script : List PageResp) (recs : List DRec) (st : ScrapeStats),
        fetchAndFilterMessages normalize channelId cutoff maxRetries script
            = Except.ok (recs, st) → st.kept ≤ st.pulled)
    ∧ (∀ (normalize : String → String) (groupId : String) (cutoff : Nat)
        (input : Except String (List TMsg)),
        (scrape24hTelegram normalize groupId cutoff input).2.kept
          ≤ (scrape24hTelegram normalize groupId cutoff input).2.pulled)
    ∧ (∀ (cutoff : Nat) (endpointName : String) (items : List ElfaItem),
        (elfaFetchEndpoint cutoff endpointName items).2.kept
          ≤ (elfaFetchEndpoint cutoff endpointName items).2.pulled)
    ∧ (∀ (channelId e : String),
        (discordTaskStats channelId (Except.error e)).kept
          ≤ (discordTaskStats channelId (Except.error e)).pulled)
    ∧ (∀ (groupId e : String),
        (telegramTaskStats groupId (Except.error e)).kept
          ≤ (telegramTaskStats groupId (Except.error e)).pulled) := by
  refine ⟨?_, ?_, ?_, ?_, ?_⟩
  · intro normalize channelId cutoff maxRetries script recs st h
    unfold fetchAndFilterMessages at h
    rcases hfp : fetchPages cutoff maxRetries 0 script [] with e | allMsgs
    · rw [hfp] at h
      exact absurd h (by simp)
    · rw [hfp] at h
      simp only [Except.ok.injEq, Prod.mk.injEq] at h
      rw [← h.2]
      exact List.length_filterMap_le _ _
  · intro normalize groupId cutoff input
    rcases input with e | msgs
    · simp [scrape24hTelegram]
    · unfold scrape24hTelegram
      simp only
      calc (dedupKeepLast (fun r : TRec => r.text)
              (List.insertionSort tAscRel (telegramCollect normalize cutoff msgs))).length
          ≤ (List.insertionSort tAscRel (telegramCollect normalize cutoff msgs)).length :=
            dedupKeepLast_length_le _ _
        _ = (telegramCollect normalize cutoff msgs).length :=
            (List.perm_insertionSort tAscRel _).length_eq
  · intro cutoff endpointName items
    unfold elfaFetchEndpoint
    simp only
    exact List.length_filter_le _ _
  · intro channelId e
    simp [discordTaskStats]
  · intro groupId e
    simp [telegramTaskStats]

/-- Sample in-window Discord message used in concrete instances. -/
def sampleRawMsg : RawMsg :=
  { id := 11, tsRaw := "2026-10-11T12:00:00", time := some 60,
    content := "major protocol exploit disclosed", username := "alice", uid := 7,
    embeds := [] }

/-- Witness for C9 at a concrete input: a Discord run pulling one substantive message
reports kept = 1 ≤ pulled = 1. -/
theorem c9_kept_le_pulled_witness :
    ({ channel_id := "c1", platform := "discord", pulled := 1, kept := 1 } : ScrapeStats).kept
      ≤ ({ channel_id := "c1", platform := "discord", pulled := 1, kept := 1 } : ScrapeStats).pulled :=
  c9_kept_le_pulled.1 (fun s => s) "c1" 50 3 [PageResp.ok [sampleRawMsg]]
    [mkDRec (fun s => s) sampleRawMsg] _ rfl

/-- In-window substantive and low-value Telegram messages for the C10 failing input. -/
def c10good : TMsg :=
  { id := 1, date := 100, text := "major protocol exploit disclosed",
    fromUser := some 42, peerChannel := none, links := [] }

def c10gm : TMsg :=
  { id := 2, date := 90, text := "gm", fromUser := some 43, peerChannel := none,
    links := [] }

/-- Claim C10 (code_bug).  The claim says pulled counts every in-window item considered
before the low-value filter.  The Telegram loop does count that way at line 100 (two
messages with text are considered here, one of them the low-value "gm"), but line 133
re-assigns `total_pulled = len(records)` after the loop, so the connector reports
pulled = 1 — the post-filter count — not 2.  The Discord connector (fourth conjunct)
reports the pre-filter count as claimed, pulled = 2 and kept = 1 on the analogous
input. -/
theorem c10_telegram_pulled_overwritten :
    telegramConsidered 50 [c10good, c10gm] = 2
    ∧ (scrape24hTelegram (fun s => s) "g1" 50 (Except.ok [c10good, c10gm])).2.pulled = 1
    ∧ (scrape24hTelegram (fun s => s) "g1" 50 (Except.ok [c10good, c10gm])).2.kept = 1
    ∧ fetchAndFilterMessages (fun s => s) "c1" 50 3
        [PageResp.ok [sampleRawMsg,
          { id := 12, tsRaw := "2026-10-11T11:00:00", time := some 55, content := "gm",
            username := "bob", uid := 8, embeds := [] }]]
        = Except.ok ([mkDRec (fun s => s) sampleRawMsg],
            { channel_id := "c1", platform := "discord", pulled := 2, kept := 1 }) := by
  refine ⟨by decide, by decide, by decide, rfl⟩
